import Mathlib

/-!
Shallow embedding of the playback-state and position-tracking core of the
Vibe audio player (`src/audio.py`, class `AudioPlayer`).

Conventions of the embedding:
* Python `int` values are modelled as `ℤ` (or `ℕ` where the source value is
  provably non-negative by construction, e.g. `loop_mode`, `song_length`,
  pygame tick counts); Python `float` positions are modelled as `ℚ`.
* Python floor division `//` and floor modulus `%` on integers are modelled
  by `Int.fdiv` / `Int.fmod` in `convert_sec_min` (they agree with Python
  for every divisor sign); the index arithmetic `(i ± 1) % len` uses Lean's
  `%` on `ℤ` (`Int.emod`), which agrees with Python's floor modulus for the
  positive modulus `len`.
* Python list indexing `l[i]` (with negative-index wraparound and
  `IndexError` out of range) is modelled by `pyGet`, returning `Option`.
* The external audio backend (pygame.mixer.music) is not modelled as code:
  each operation returns the list of backend commands it issues.  A call on
  an uninitialised mixer raises `pygame.error`; the flag `AUDIO_OK` records
  whether `pygame.mixer.init()` succeeded, and backend calls made while
  `AUDIO_OK` is false are modelled as failing.  `adjust_song` additionally
  takes a `set_pos_ok` flag because the spec discusses the backend rejecting
  `set_pos` even on a healthy mixer.
* Metadata extraction (`MP3(path, ID3=EasyID3)`) is an external effect; it is
  modelled by an oracle `tags : String → Option Meta`, `none` meaning the
  constructor raised (missing file, corrupt container, ...).  Absent
  individual tags are already folded into `Meta` by the source's
  `title_list[0] if title_list else ""` pattern.
* An operation that lets a Python exception propagate to its caller is
  modelled by `ok := false` in its result; the partially mutated state at
  the moment the exception was raised is retained, as it is in Python.
-/

/-- Identity of the icon object stored in `current_icon`
(the source swaps between `play_bnt` and `pause_bnt`). -/
inductive Icon where
  | play_icon : Icon
  | pause_icon : Icon
deriving DecidableEq, Repr

/-- Backend (pygame.mixer.music) commands issued by the core. -/
inductive Cmd where
  | load : String → Cmd
  | play : Cmd
  | play_from : ℚ → Cmd
  | pause : Cmd
  | unpause : Cmd
  | set_pos : ℚ → Cmd
  | set_volume : ℚ → Cmd
deriving DecidableEq, Repr

/-- Result of a successful metadata extraction: title and artist already
defaulted to `""` when the individual tag is absent, and
`int(audio_file.info.length)` as a natural number. -/
structure Meta where
  title : String
  artist : String
  lengthSeconds : ℕ
deriving DecidableEq, Repr

/-- Mutable fields of `AudioPlayer` that belong to the playback core
(UI object references `player_window`, `root`, `pause_bnt`, `play_bnt`
are external and not modelled, except for the `current_icon` identity). -/
structure PState where
  AUDIO_OK : Bool
  playlist : List String
  index : ℤ
  is_playing : Bool
  paused : Bool
  loop_mode : ℕ
  current_song_title : String
  current_song_artist : String
  current_song_length : String
  current_song_position : String
  song_length : ℕ
  seek_offset : ℚ
  last_update_time : ℕ
  current_icon : Icon
deriving DecidableEq, Repr

/-- Result of one operation: the state after it returned (or after the
statement at which an exception escaped), the backend commands issued,
and `ok = false` when a Python exception propagated to the caller. -/
structure Res where
  st : PState
  cmds : List Cmd
  ok : Bool
deriving DecidableEq, Repr

/-- Python list indexing `l[i]`: non-negative indices from the front,
negative indices from the back, `none` for `IndexError`. -/
def pyGet {α : Type} (l : List α) (i : ℤ) : Option α :=
  if 0 ≤ i then l.get? i.toNat
  else if (-i).toNat ≤ l.length then l.get? (l.length - (-i).toNat)
  else none

/-- Python `int()` applied to a rational: truncation toward zero, i.e.
T-division of the numerator by the (positive) denominator. -/
def pyInt (q : ℚ) : ℤ :=
  Int.tdiv q.num (q.den : ℤ)

/-- Python format spec `{z:02}` on an integer: pad with `0` to width 2
(negative values of width ≥ 2 are untouched, as in Python). -/
def pyFmt02 (z : ℤ) : String :=
  if 0 ≤ z ∧ z < 10 then "0" ++ toString z else toString z

/-- Format used inline by `_song_meta_data` on the natural number of
seconds: `f"{seconds // 60}:{seconds % 60:02}"`. -/
def fmtMinSec (n : ℕ) : String :=
  toString (n / 60) ++ ":" ++ (if n % 60 < 10 then "0" ++ toString (n % 60) else toString (n % 60))

/-- Fields set by `AudioPlayer.__init__` after construction
(`AUDIO_OK` from whether `pygame.mixer.init()` raised, `current_icon`
taken from the window). -/
def initial_state (audio_ok : Bool) (icon : Icon) : PState where
  AUDIO_OK := audio_ok
  playlist := []
  index := 0
  is_playing := false
  paused := false
  loop_mode := 0
  current_song_title := ""
  current_song_artist := ""
  current_song_length := "0:00"
  current_song_position := "0:00"
  song_length := 0
  seek_offset := 0
  last_update_time := 0
  current_icon := icon

/-- `AudioPlayer._song_meta_data`: reads `self.playlist[self.index]` and the
tag oracle inside one `try`; on success stores duration, title, artist and
the formatted duration string; on any failure (`except Exception: pass`)
changes nothing and raises nothing. -/
def song_meta_data (tags : String → Option Meta) (s : PState) : PState :=
  match (pyGet s.playlist s.index).bind tags with
  | none => s
  | some m =>
    { s with
      song_length := m.lengthSeconds
      current_song_title := m.title
      current_song_artist := m.artist
      current_song_length := fmtMinSec m.lengthSeconds }

/-- `AudioPlayer._play_music song`: when `AUDIO_OK`, issues backend
load + play, sets the playing flags, zeroes the anchor offset, re-anchors
the timestamp to `now` (`pygame.time.get_ticks()`), and recomputes
metadata; when the mixer failed to initialise it does nothing at all. -/
def play_music (tags : String → Option Meta) (now : ℕ) (song : String)
    (s : PState) : PState × List Cmd :=
  if s.AUDIO_OK then
    (song_meta_data tags
      { s with
        is_playing := true
        paused := false
        seek_offset := 0
        last_update_time := now },
     [Cmd.load song, Cmd.play])
  else (s, [])

/-- `AudioPlayer._pause_music`: when `AUDIO_OK`, issues backend pause and
sets `is_playing := false`, `paused := true`; otherwise does nothing. -/
def pause_music (s : PState) : PState × List Cmd :=
  if s.AUDIO_OK then
    ({ s with is_playing := false, paused := true }, [Cmd.pause])
  else (s, [])

/-- `AudioPlayer.toggle_play_pause`: no-op on an empty playlist; when
playing, pauses and shows the play icon; otherwise, if not paused it plays
`self.playlist[self.index]` (an out-of-range index raises `IndexError`
inside the `try`, the broad `except` retries the same indexing and the
second `IndexError` escapes with the state unmutated), and if paused it
calls backend unpause (which raises `pygame.error` when the mixer is not
initialised, in which case the `except` falls back to `_play_music`, a
no-op without `AUDIO_OK`); both non-playing branches end by setting
`is_playing := true` and the pause icon. -/
def toggle_play_pause (tags : String → Option Meta) (now : ℕ) (s : PState) : Res :=
  if s.playlist = [] then ⟨s, [], true⟩
  else if s.is_playing then
    let p := pause_music s
    ⟨{ p.1 with is_playing := false, current_icon := Icon.play_icon }, p.2, true⟩
  else if ¬ s.paused then
    match pyGet s.playlist s.index with
    | none => ⟨s, [], false⟩
    | some song =>
      let p := play_music tags now song s
      ⟨{ p.1 with is_playing := true, current_icon := Icon.pause_icon }, p.2, true⟩
  else
    if s.AUDIO_OK then
      ⟨{ s with paused := false, is_playing := true, current_icon := Icon.pause_icon },
       [Cmd.unpause], true⟩
    else
      match pyGet s.playlist s.index with
      | none => ⟨s, [], false⟩
      | some _ =>
        ⟨{ s with is_playing := true, current_icon := Icon.pause_icon }, [], true⟩

/-- `AudioPlayer.add_songs`: `files` is the tuple returned by the file
dialog; an empty selection does nothing; a non-empty one replaces the
playlist wholesale and then plays `self.playlist[self.index]` — the index
is NOT reset, so an index beyond the new length raises `IndexError` after
the playlist was already replaced. -/
def add_songs (tags : String → Option Meta) (now : ℕ) (files : List String)
    (s : PState) : Res :=
  if files = [] then ⟨s, [], true⟩
  else
    let s1 := { s with playlist := files }
    match pyGet s1.playlist s1.index with
    | none => ⟨s1, [], false⟩
    | some song =>
      let p := play_music tags now song s1
      ⟨{ p.1 with is_playing := true, current_icon := Icon.pause_icon }, p.2, true⟩

/-- `AudioPlayer.next_song`: no-op on an empty playlist, else
`index ← (index + 1) % len(playlist)` (Python floor modulus) and play the
new current track. -/
def next_song (tags : String → Option Meta) (now : ℕ) (s : PState) : Res :=
  if s.playlist = [] then ⟨s, [], true⟩
  else
    let s1 := { s with index := (s.index + 1) % (s.playlist.length : ℤ) }
    match pyGet s1.playlist s1.index with
    | none => ⟨s1, [], false⟩
    | some song =>
      let p := play_music tags now song s1
      ⟨{ p.1 with is_playing := true, current_icon := Icon.pause_icon }, p.2, true⟩

/-- `AudioPlayer.previous_song`: no-op on an empty playlist, else
`index ← (index - 1) % len(playlist)` and play the new current track. -/
def previous_song (tags : String → Option Meta) (now : ℕ) (s : PState) : Res :=
  if s.playlist = [] then ⟨s, [], true⟩
  else
    let s1 := { s with index := (s.index - 1) % (s.playlist.length : ℤ) }
    match pyGet s1.playlist s1.index with
    | none => ⟨s1, [], false⟩
    | some song =>
      let p := play_music tags now song s1
      ⟨{ p.1 with is_playing := true, current_icon := Icon.pause_icon }, p.2, true⟩

/-- `AudioPlayer.change_volume value`: calls
`pygame.mixer.music.set_volume(value)` with no `AUDIO_OK` guard and no
`try`; on an uninitialised mixer the call raises an uncaught
`pygame.error`, so `ok = false` with the state untouched. -/
def change_volume (value : ℚ) (s : PState) : Res :=
  if s.AUDIO_OK then ⟨s, [Cmd.set_volume value], true⟩
  else ⟨s, [], false⟩

/-- `AudioPlayer.adjust_song value`: no-op when playlist is empty or
`song_length == 0`; otherwise it FIRST stores
`seek_offset ← value * song_length` and `last_update_time ← now`, THEN
calls backend `set_pos`; `set_pos_ok = false` models the backend raising
`pygame.error` there (also the case of an uninitialised mixer), which the
`except pygame.error` swallows after the anchor was already overwritten.
On success, a stopped player is started with `play(start=...)` and a
paused one is unpaused. -/
def adjust_song (now : ℕ) (set_pos_ok : Bool) (value : ℚ) (s : PState) : Res :=
  if s.playlist = [] ∨ s.song_length = 0 then ⟨s, [], true⟩
  else
    let position_seconds : ℚ := value * (s.song_length : ℚ)
    let s1 := { s with seek_offset := position_seconds, last_update_time := now }
    if ¬ set_pos_ok then ⟨s1, [Cmd.set_pos position_seconds], true⟩
    else if ¬ s1.is_playing then
      ⟨{ s1 with is_playing := true, paused := false },
       [Cmd.set_pos position_seconds, Cmd.play_from position_seconds], true⟩
    else if s1.paused then
      ⟨{ s1 with paused := false },
       [Cmd.set_pos position_seconds, Cmd.unpause], true⟩
    else ⟨s1, [Cmd.set_pos position_seconds], true⟩

/-- `AudioPlayer.get_current_position`: `seek_offset` unless playing and
not paused, else `min(seek_offset + (now - last_update_time)/1000,
song_length)` with `now = pygame.time.get_ticks()` in milliseconds. -/
def get_current_position (now : ℕ) (s : PState) : ℚ :=
  if s.is_playing = false ∨ s.paused = true then s.seek_offset
  else
    min (s.seek_offset + ((now : ℚ) - (s.last_update_time : ℚ)) / 1000)
      (s.song_length : ℚ)

/-- `AudioPlayer.convert_sec_min`: `f"{int(seconds) // 60}:{int(seconds) % 60:02}"`
with Python truncation, floor division and floor modulus. -/
def convert_sec_min (seconds : ℚ) : String :=
  toString (Int.fdiv (pyInt seconds) 60) ++ ":" ++ pyFmt02 (Int.fmod (pyInt seconds) 60)

/-- `AudioPlayer.update_current_position`: refreshes the displayed
position string each frame. -/
def update_current_position (now : ℕ) (s : PState) : PState :=
  if s.playlist ≠ [] ∧ 0 < s.song_length then
    { s with current_song_position := convert_sec_min (get_current_position now s) }
  else { s with current_song_position := "0:00" }

/-- `AudioPlayer.toggle_loop_mode`: `loop_mode ← (loop_mode + 1) % 3`,
returned to the caller. -/
def toggle_loop_mode (s : PState) : PState × ℕ :=
  ({ s with loop_mode := (s.loop_mode + 1) % 3 }, (s.loop_mode + 1) % 3)

/-- `AudioPlayer.on_song_end`: loop-one replays `playlist[index]` (an empty
playlist would raise `IndexError`), loop-all delegates to `next_song`, and
loop-off stops: flags cleared, anchor zeroed, play icon, no backend
command. -/
def on_song_end (tags : String → Option Meta) (now : ℕ) (s : PState) : Res :=
  if s.loop_mode = 2 then
    match pyGet s.playlist s.index with
    | none => ⟨s, [], false⟩
    | some song =>
      let p := play_music tags now song s
      ⟨{ p.1 with current_icon := Icon.pause_icon }, p.2, true⟩
  else if s.loop_mode = 1 then next_song tags now s
  else
    ⟨{ s with
        is_playing := false
        paused := false
        seek_offset := 0
        last_update_time := 0
        current_icon := Icon.play_icon }, [], true⟩

/-! Helper lemmas about the embedded operations. -/

@[simp]
theorem song_meta_data_AUDIO_OK (tags : String → Option Meta) (s : PState) :
    (song_meta_data tags s).AUDIO_OK = s.AUDIO_OK := by
  unfold song_meta_data
  cases (pyGet s.playlist s.index).bind tags <;> rfl

@[simp]
theorem song_meta_data_playlist (tags : String → Option Meta) (s : PState) :
    (song_meta_data tags s).playlist = s.playlist := by
  unfold song_meta_data
  cases (pyGet s.playlist s.index).bind tags <;> rfl

@[simp]
theorem song_meta_data_index (tags : String → Option Meta) (s : PState) :
    (song_meta_data tags s).index = s.index := by
  unfold song_meta_data
  cases (pyGet s.playlist s.index).bind tags <;> rfl

@[simp]
theorem song_meta_data_is_playing (tags : String → Option Meta) (s : PState) :
    (song_meta_data tags s).is_playing = s.is_playing := by
  unfold song_meta_data
  cases (pyGet s.playlist s.index).bind tags <;> rfl

@[simp]
theorem song_meta_data_paused (tags : String → Option Meta) (s : PState) :
    (song_meta_data tags s).paused = s.paused := by
  unfold song_meta_data
  cases (pyGet s.playlist s.index).bind tags <;> rfl

@[simp]
theorem song_meta_data_seek_offset (tags : String → Option Meta) (s : PState) :
    (song_meta_data tags s).seek_offset = s.seek_offset := by
  unfold song_meta_data
  cases (pyGet s.playlist s.index).bind tags <;> rfl

@[simp]
theorem song_meta_data_last_update_time (tags : String → Option Meta) (s : PState) :
    (song_meta_data tags s).last_update_time = s.last_update_time := by
  unfold song_meta_data
  cases (pyGet s.playlist s.index).bind tags <;> rfl

@[simp]
theorem play_music_playlist (tags : String → Option Meta) (now : ℕ) (song : String) (s : PState) :
    (play_music tags now song s).1.playlist = s.playlist := by
  unfold play_music
  by_cases h : s.AUDIO_OK = true <;> simp [h]

@[simp]
theorem play_music_index (tags : String → Option Meta) (now : ℕ) (song : String) (s : PState) :
    (play_music tags now song s).1.index = s.index := by
  unfold play_music
  by_cases h : s.AUDIO_OK = true <;> simp [h]

@[simp]
theorem play_music_AUDIO_OK (tags : String → Option Meta) (now : ℕ) (song : String) (s : PState) :
    (play_music tags now song s).1.AUDIO_OK = s.AUDIO_OK := by
  unfold play_music
  by_cases h : s.AUDIO_OK = true <;> simp [h]

theorem play_music_flags (tags : String → Option Meta) (now : ℕ) (song : String) (s : PState)
    (h : s.AUDIO_OK = true) :
    (play_music tags now song s).1.is_playing = true ∧
    (play_music tags now song s).1.paused = false ∧
    (play_music tags now song s).1.seek_offset = 0 ∧
    (play_music tags now song s).1.last_update_time = now := by
  unfold play_music
  simp [h]

theorem pyGet_eq_some {α : Type} {l : List α} {i : ℤ} (h0 : 0 ≤ i) (hl : i < (l.length : ℤ)) :
    ∃ a, pyGet l i = some a := by
  unfold pyGet
  rw [if_pos h0]
  have hn : i.toNat < l.length := by omega
  exact ⟨l.get ⟨i.toNat, hn⟩, List.get?_eq_get hn⟩

theorem emod_neg_one {L : ℤ} (hL : 0 < L) : (-1) % L = L - 1 := by
  have h1 : (-1 : ℤ) = (L - 1) + L * (-1) := by ring
  rw [h1]
  calc ((L - 1) + L * (-1)) % L = (L - 1) % L :=
        Int.add_mul_emod_self_left (L - 1) L (-1)
    _ = L - 1 := Int.emod_eq_of_lt (by omega) (by omega)

theorem emod_next_prev {i L : ℤ} (h0 : 0 ≤ i) (hi : i < L) :
    ((i + 1) % L - 1) % L = i := by
  rcases eq_or_lt_of_le (by omega : i + 1 ≤ L) with heq | hlt
  · have h1 : (i + 1) % L = 0 := by rw [heq]; exact Int.emod_self
    rw [h1, show (0 : ℤ) - 1 = -1 by ring, emod_neg_one (by omega)]
    omega
  · have h1 : (i + 1) % L = i + 1 := Int.emod_eq_of_lt (by omega) hlt
    rw [h1, show i + 1 - 1 = i by ring]
    exact Int.emod_eq_of_lt h0 hi

theorem emod_prev_next {i L : ℤ} (h0 : 0 ≤ i) (hi : i < L) :
    ((i - 1) % L + 1) % L = i := by
  rcases eq_or_lt_of_le h0 with heq | hpos
  · have h1 : (i - 1) % L = L - 1 := by
      rw [← heq, show (0 : ℤ) - 1 = -1 by ring]
      exact emod_neg_one (by omega)
    rw [h1, show L - 1 + 1 = L by ring, Int.emod_self]
    omega
  · have h1 : (i - 1) % L = i - 1 :=
      Int.emod_eq_of_lt (by omega) (by omega)
    rw [h1, show i - 1 + 1 = i by ring]
    exact Int.emod_eq_of_lt h0 hi

theorem next_song_st (tags : String → Option Meta) (now : ℕ) (s : PState)
    (hne : s.playlist ≠ []) :
    (next_song tags now s).st.playlist = s.playlist ∧
    (next_song tags now s).st.index = (s.index + 1) % (s.playlist.length : ℤ) ∧
    (next_song tags now s).st.AUDIO_OK = s.AUDIO_OK ∧
    (next_song tags now s).st.is_playing = true ∧
    (s.AUDIO_OK = true → (next_song tags now s).st.paused = false) := by
  have hL : 0 < (s.playlist.length : ℤ) := by
    have := List.length_pos.mpr hne
    omega
  obtain ⟨song, hsong⟩ :=
    pyGet_eq_some (l := s.playlist) (i := (s.index + 1) % (s.playlist.length : ℤ))
      (Int.emod_nonneg _ (by omega)) (Int.emod_lt_of_pos _ hL)
  unfold next_song
  rw [if_neg hne]
  simp only [hsong]
  refine ⟨by simp, by simp, by simp, by simp, fun hok => ?_⟩
  have := play_music_flags tags now song
    { s with index := (s.index + 1) % (s.playlist.length : ℤ) } hok
  simp [this.2.1]

theorem previous_song_st (tags : String → Option Meta) (now : ℕ) (s : PState)
    (hne : s.playlist ≠ []) :
    (previous_song tags now s).st.playlist = s.playlist ∧
    (previous_song tags now s).st.index = (s.index - 1) % (s.playlist.length : ℤ) ∧
    (previous_song tags now s).st.AUDIO_OK = s.AUDIO_OK ∧
    (previous_song tags now s).st.is_playing = true ∧
    (s.AUDIO_OK = true → (previous_song tags now s).st.paused = false) := by
  have hL : 0 < (s.playlist.length : ℤ) := by
    have := List.length_pos.mpr hne
    omega
  obtain ⟨song, hsong⟩ :=
    pyGet_eq_some (l := s.playlist) (i := (s.index - 1) % (s.playlist.length : ℤ))
      (Int.emod_nonneg _ (by omega)) (Int.emod_lt_of_pos _ hL)
  unfold previous_song
  rw [if_neg hne]
  simp only [hsong]
  refine ⟨by simp, by simp, by simp, by simp, fun hok => ?_⟩
  have := play_music_flags tags now song
    { s with index := (s.index - 1) % (s.playlist.length : ℤ) } hok
  simp [this.2.1]

/-- Zero-padding of a natural number to two digits, as written in the
spec's testable property ("pad2"). -/
def pad2 (n : ℕ) : String :=
  if n < 10 then "0" ++ toString n else toString n

theorem toString_natCast_int (k : ℕ) : toString ((k : ℕ) : ℤ) = toString k := rfl

/-- C7: for every seconds ≥ 0, `convert_sec_min` returns the string whose
minutes part is the truncated integer quotient of seconds by 60 with no
upper bound, and whose seconds part is the remainder mod 60 zero-padded to
two digits; in particular format(0)="0:00", format(65)="1:05",
format(3661)="61:01". -/
theorem convert_sec_min_spec (q : ℚ) (hq : 0 ≤ q) :
    convert_sec_min q = toString (⌊q⌋.toNat / 60) ++ ":" ++ pad2 (⌊q⌋.toNat % 60) ∧
    convert_sec_min 0 = "0:00" ∧ convert_sec_min 65 = "1:05" ∧
    convert_sec_min 3661 = "61:01" := by
  refine ⟨?_, by decide, by decide, by decide⟩
  have hnum : pyInt q = ⌊q⌋ := by
    unfold pyInt
    have h1 : 0 ≤ q.num := Rat.num_nonneg.mpr hq
    rw [Int.tdiv_eq_ediv h1 (by positivity)]
    exact Rat.floor_def.symm
  have hfl : ⌊q⌋ = ((⌊q⌋.toNat : ℕ) : ℤ) := by
    have : 0 ≤ ⌊q⌋ := Int.floor_nonneg.mpr hq
    omega
  set n := ⌊q⌋.toNat with hn
  unfold convert_sec_min
  rw [hnum, hfl]
  have hdiv : Int.fdiv (n : ℤ) 60 = ((n / 60 : ℕ) : ℤ) := by
    rw [Int.fdiv_eq_ediv _ (by norm_num)]
    exact (Int.ofNat_ediv n 60).symm
  have hmod : Int.fmod (n : ℤ) 60 = ((n % 60 : ℕ) : ℤ) := by
    rw [Int.fmod_eq_emod _ (by norm_num)]
    exact (Int.ofNat_emod n 60).symm
  rw [hdiv, hmod]
  have hpf : pyFmt02 ((n % 60 : ℕ) : ℤ) = pad2 (n % 60) := by
    unfold pyFmt02 pad2
    by_cases h : n % 60 < 10
    · rw [if_pos ⟨by positivity, by exact_mod_cast h⟩, if_pos h, toString_natCast_int]
    · rw [if_neg (fun hc => h (by exact_mod_cast hc.2)), if_neg h, toString_natCast_int]
  rw [hpf, toString_natCast_int]

/-- Witness for C7 at seconds = 3661. -/
theorem convert_sec_min_spec_witness :
    (0 : ℚ) ≤ 3661 ∧
    convert_sec_min 3661 =
      toString (⌊(3661 : ℚ)⌋.toNat / 60) ++ ":" ++ pad2 (⌊(3661 : ℚ)⌋.toNat % 60) :=
  ⟨by norm_num, (convert_sec_min_spec 3661 (by norm_num)).1⟩

/-- C9: with loop mode Off the natural track-end signal stops playback,
resets the position offset to 0 and issues no backend command; with loop
mode RepeatAll (1) it behaves exactly as the next intent. -/
theorem on_song_end_dispatch (tags : String → Option Meta) (now : ℕ) (s : PState) :
    (on_song_end tags now { s with loop_mode := 0 }).st.is_playing = false ∧
    (on_song_end tags now { s with loop_mode := 0 }).st.paused = false ∧
    (on_song_end tags now { s with loop_mode := 0 }).st.seek_offset = 0 ∧
    (on_song_end tags now { s with loop_mode := 0 }).st.last_update_time = 0 ∧
    (on_song_end tags now { s with loop_mode := 0 }).cmds = [] ∧
    (on_song_end tags now { s with loop_mode := 0 }).ok = true ∧
    on_song_end tags now { s with loop_mode := 1 } = next_song tags now { s with loop_mode := 1 } := by
  unfold on_song_end
  norm_num

/-- C8: from any in-range index of a non-empty playlist (with a healthy
backend), next-then-previous and previous-then-next both restore the
starting index, both operations leave the player in the Playing status,
and next from the last index wraps the index around to 0. -/
theorem next_previous_roundtrip (tags : String → Option Meta) (n1 n2 : ℕ) (s : PState)
    (hok : s.AUDIO_OK = true) (hne : s.playlist ≠ [])
    (h0 : 0 ≤ s.index) (hlt : s.index < (s.playlist.length : ℤ)) :
    (previous_song tags n2 (next_song tags n1 s).st).st.index = s.index ∧
    (next_song tags n2 (previous_song tags n1 s).st).st.index = s.index ∧
    (next_song tags n1 s).st.is_playing = true ∧
    (next_song tags n1 s).st.paused = false ∧
    (previous_song tags n1 s).st.is_playing = true ∧
    (previous_song tags n1 s).st.paused = false ∧
    (next_song tags n1 { s with index := (s.playlist.length : ℤ) - 1 }).st.index = 0 := by
  have hL : 0 < (s.playlist.length : ℤ) := by
    have := List.length_pos.mpr hne
    omega
  obtain ⟨hpl₁, hidx₁, hok₁, hplay₁, hpause₁⟩ := next_song_st tags n1 s hne
  obtain ⟨hpl₁', hidx₁', hok₁', hplay₁', hpause₁'⟩ := previous_song_st tags n1 s hne
  have htne : (next_song tags n1 s).st.playlist ≠ [] := by rw [hpl₁]; exact hne
  have htne' : (previous_song tags n1 s).st.playlist ≠ [] := by rw [hpl₁']; exact hne
  obtain ⟨_, hidx₂, _, _, _⟩ := previous_song_st tags n2 (next_song tags n1 s).st htne
  obtain ⟨_, hidx₂', _, _, _⟩ := next_song_st tags n2 (previous_song tags n1 s).st htne'
  refine ⟨?_, ?_, hplay₁, hpause₁ hok, hplay₁', hpause₁' hok, ?_⟩
  · rw [hidx₂, hidx₁, hpl₁]
    exact emod_next_prev h0 hlt
  · rw [hidx₂', hidx₁', hpl₁']
    exact emod_prev_next h0 hlt
  · have hne2 : ({ s with index := (s.playlist.length : ℤ) - 1 } : PState).playlist ≠ [] := hne
    obtain ⟨_, hidx₃, _, _, _⟩ :=
      next_song_st tags n1 { s with index := (s.playlist.length : ℤ) - 1 } hne2
    rw [hidx₃]
    simp only []
    rw [show (s.playlist.length : ℤ) - 1 + 1 = (s.playlist.length : ℤ) by ring]
    exact Int.emod_self

/-- Three-track playlist positioned on the last track, as in the spec's
wraparound scenario. -/
def threeTrackState : PState :=
  { initial_state true Icon.play_icon with
      playlist := ["song1.mp3", "song2.mp3", "song3.mp3"], index := 2 }

/-- Witness for C8: a 3-track playlist at index 2 (the last). -/
theorem next_previous_roundtrip_witness :
    threeTrackState.AUDIO_OK = true ∧ threeTrackState.playlist ≠ [] ∧
    0 ≤ threeTrackState.index ∧
    threeTrackState.index < (threeTrackState.playlist.length : ℤ) ∧
    ((previous_song (fun _ => none) 5
        (next_song (fun _ => none) 4 threeTrackState).st).st.index = threeTrackState.index ∧
     (next_song (fun _ => none) 5
        (previous_song (fun _ => none) 4 threeTrackState).st).st.index = threeTrackState.index ∧
     (next_song (fun _ => none) 4 threeTrackState).st.is_playing = true ∧
     (next_song (fun _ => none) 4 threeTrackState).st.paused = false ∧
     (previous_song (fun _ => none) 4 threeTrackState).st.is_playing = true ∧
     (previous_song (fun _ => none) 4 threeTrackState).st.paused = false ∧
     (next_song (fun _ => none) 4
        { threeTrackState with
            index := (threeTrackState.playlist.length : ℤ) - 1 }).st.index = 0) :=
  ⟨by decide, by decide, by decide, by decide,
   next_previous_roundtrip (fun _ => none) 4 5 _ (by decide) (by decide) (by decide) (by decide)⟩

theorem get_current_position_not_playing (n : ℕ) (s : PState)
    (h : s.is_playing = false ∨ s.paused = true) :
    get_current_position n s = s.seek_offset := by
  unfold get_current_position
  rw [if_pos h]

theorem get_current_position_playing (n : ℕ) (s : PState)
    (hp : s.is_playing = true) (hq : s.paused = false) :
    get_current_position n s =
      min (s.seek_offset + ((n : ℚ) - (s.last_update_time : ℚ)) / 1000) (s.song_length : ℚ) := by
  unfold get_current_position
  rw [if_neg (by simp [hp, hq])]

/-- C6: `get_current_position` returns `seek_offset` unchanged in the
Paused and Stopped statuses and
`min(seek_offset + (now - last_update_time)/1000, song_length)` in the
Playing status; the result never exceeds `song_length` (in the non-playing
statuses under the reachable-state bound `seek_offset ≤ song_length`), is
monotonically non-decreasing in `now` while Playing, and is constant in
`now` while Paused. -/
theorem get_current_position_spec (s : PState) (n n1 n2 : ℕ)
    (hoff : s.seek_offset ≤ (s.song_length : ℚ)) (h12 : n1 ≤ n2) :
    get_current_position n { s with is_playing := false, paused := true } = s.seek_offset ∧
    get_current_position n { s with is_playing := false, paused := false } = s.seek_offset ∧
    get_current_position n { s with is_playing := true, paused := false } =
      min (s.seek_offset + ((n : ℚ) - (s.last_update_time : ℚ)) / 1000) (s.song_length : ℚ) ∧
    get_current_position n { s with is_playing := true, paused := false } ≤ (s.song_length : ℚ) ∧
    get_current_position n { s with is_playing := false, paused := true } ≤ (s.song_length : ℚ) ∧
    get_current_position n { s with is_playing := false, paused := false } ≤ (s.song_length : ℚ) ∧
    get_current_position n1 { s with is_playing := true, paused := false } ≤
      get_current_position n2 { s with is_playing := true, paused := false } ∧
    get_current_position n1 { s with paused := true } =
      get_current_position n2 { s with paused := true } := by
  have hc : ((n1 : ℚ)) ≤ ((n2 : ℚ)) := by exact_mod_cast h12
  have h₁ := get_current_position_not_playing n
    { s with is_playing := false, paused := true } (Or.inl rfl)
  have h₂ := get_current_position_not_playing n
    { s with is_playing := false, paused := false } (Or.inl rfl)
  have h₃ := get_current_position_playing n
    { s with is_playing := true, paused := false } rfl rfl
  have h₄ := get_current_position_playing n1
    { s with is_playing := true, paused := false } rfl rfl
  have h₅ := get_current_position_playing n2
    { s with is_playing := true, paused := false } rfl rfl
  have h₆ := get_current_position_not_playing n1 { s with paused := true } (Or.inr rfl)
  have h₇ := get_current_position_not_playing n2 { s with paused := true } (Or.inr rfl)
  refine ⟨h₁, h₂, h₃, ?_, ?_, ?_, ?_, ?_⟩
  · rw [h₃]
    exact min_le_right _ _
  · rw [h₁]
    exact hoff
  · rw [h₂]
    exact hoff
  · rw [h₄, h₅]
    gcongr
  · rw [h₆, h₇]

/-- Witness for C6 at a concrete state and tick values. -/
theorem get_current_position_spec_witness :
    threeTrackState.seek_offset ≤ (threeTrackState.song_length : ℚ) ∧ (3 : ℕ) ≤ 7 ∧
    (get_current_position 5 { threeTrackState with is_playing := false, paused := true } =
        threeTrackState.seek_offset ∧
     get_current_position 5 { threeTrackState with is_playing := false, paused := false } =
        threeTrackState.seek_offset ∧
     get_current_position 5 { threeTrackState with is_playing := true, paused := false } =
        min (threeTrackState.seek_offset +
          ((5 : ℚ) - (threeTrackState.last_update_time : ℚ)) / 1000)
          (threeTrackState.song_length : ℚ) ∧
     get_current_position 5 { threeTrackState with is_playing := true, paused := false } ≤
        (threeTrackState.song_length : ℚ) ∧
     get_current_position 5 { threeTrackState with is_playing := false, paused := true } ≤
        (threeTrackState.song_length : ℚ) ∧
     get_current_position 5 { threeTrackState with is_playing := false, paused := false } ≤
        (threeTrackState.song_length : ℚ) ∧
     get_current_position 3 { threeTrackState with is_playing := true, paused := false } ≤
        get_current_position 7 { threeTrackState with is_playing := true, paused := false } ∧
     get_current_position 3 { threeTrackState with paused := true } =
        get_current_position 7 { threeTrackState with paused := true }) :=
  ⟨by decide, by decide,
   get_current_position_spec threeTrackState 5 3 7 (by decide) (by decide)⟩

/-- Playlist state whose current track has previously-resolved metadata,
about to face a failing metadata extraction. -/
def staleMetaState : PState :=
  { initial_state true Icon.play_icon with
      playlist := ["broken.mp3"], index := 0,
      current_song_title := "Old Title", current_song_artist := "Old Artist",
      current_song_length := "2:03", song_length := 123 }

/-- Counterexample to C3: when extraction fails, the resolver does not
reset title/artist/duration to ""/""/0 — the previously resolved values
stay in place. -/
theorem song_meta_data_failure_counterexample :
    (song_meta_data (fun _ => none) staleMetaState).current_song_title = "Old Title" ∧
    (song_meta_data (fun _ => none) staleMetaState).current_song_artist = "Old Artist" ∧
    (song_meta_data (fun _ => none) staleMetaState).song_length = 123 ∧
    ¬ ((song_meta_data (fun _ => none) staleMetaState).current_song_title = "" ∧
       (song_meta_data (fun _ => none) staleMetaState).current_song_artist = "" ∧
       (song_meta_data (fun _ => none) staleMetaState).song_length = 0) := by
  decide

/-- C3 as amended: for every track reference whose metadata extraction
fails, the resolver neither raises nor modifies any metadata field — the
previously resolved title/artist/duration values remain in place (the
""/""/0 defaults are only what `__init__` installed before the first
successful resolution). -/
theorem song_meta_data_failure_amended (tags : String → Option Meta) (s : PState)
    (h : (pyGet s.playlist s.index).bind tags = none) :
    song_meta_data tags s = s := by
  unfold song_meta_data
  rw [h]

/-- Witness for the amended C3. -/
theorem song_meta_data_failure_amended_witness :
    (pyGet staleMetaState.playlist staleMetaState.index).bind (fun _ => (none : Option Meta))
      = none ∧
    song_meta_data (fun _ => none) staleMetaState = staleMetaState :=
  ⟨by decide, song_meta_data_failure_amended (fun _ => none) staleMetaState (by decide)⟩

/-- Player playing track 0 of a one-track playlist with a previously
established anchor, about to issue a seek the backend will reject. -/
def seekFailState : PState :=
  { initial_state true Icon.play_icon with
      playlist := ["a.mp3"], index := 0, is_playing := true, paused := false,
      song_length := 100, seek_offset := 5, last_update_time := 1000 }

/-- Counterexample to C4: when the backend rejects `set_pos`, the anchor
does NOT keep its pre-call values — `seek_offset` and `last_update_time`
were overwritten before the failing backend call. -/
theorem adjust_song_failure_counterexample :
    (adjust_song 7000 false (1/2) seekFailState).st.seek_offset = 50 ∧
    (adjust_song 7000 false (1/2) seekFailState).st.last_update_time = 7000 ∧
    (adjust_song 7000 false (1/2) seekFailState).ok = true ∧
    seekFailState.seek_offset = 5 ∧ seekFailState.last_update_time = 1000 ∧
    (50 : ℚ) ≠ 5 := by
  norm_num [adjust_song, seekFailState, initial_state]

/-- C4 as amended: when the backend rejects `set_pos`, no exception
propagates to the caller and no further backend command is issued, but the
anchor has already been updated to the seek target:
`seek_offset = fraction * song_length` and `last_update_time = now`; the
pre-call anchor is not restored. -/
theorem adjust_song_failure_amended (now : ℕ) (value : ℚ) (s : PState)
    (hne : s.playlist ≠ []) (hlen : s.song_length ≠ 0) :
    adjust_song now false value s =
      ⟨{ s with seek_offset := value * (s.song_length : ℚ), last_update_time := now },
       [Cmd.set_pos (value * (s.song_length : ℚ))], true⟩ := by
  unfold adjust_song
  rw [if_neg (by push_neg; exact ⟨hne, hlen⟩)]
  simp

/-- Witness for the amended C4. -/
theorem adjust_song_failure_amended_witness :
    seekFailState.playlist ≠ [] ∧ seekFailState.song_length ≠ 0 ∧
    adjust_song 7000 false (1/2) seekFailState =
      ⟨{ seekFailState with
          seek_offset := (1/2) * (seekFailState.song_length : ℚ),
          last_update_time := 7000 },
       [Cmd.set_pos ((1/2) * (seekFailState.song_length : ℚ))], true⟩ :=
  ⟨by decide, by decide,
   adjust_song_failure_amended 7000 (1/2) seekFailState (by decide) (by decide)⟩

/-- Player playing track index 1 of a three-track playlist (a reachable
situation: load three tracks, press next). -/
def staleIndexState : PState :=
  { initial_state true Icon.play_icon with
      playlist := ["x.mp3", "y.mp3", "z.mp3"], index := 1,
      is_playing := true, song_length := 200 }

/-- C1 (code bug): `add_songs` replaces the playlist but never resets the
index, so from index 1 a three-file selection loads the SECOND new track
and leaves the index at 1, and from index 2 a two-file selection raises an
uncaught IndexError after the playlist was already replaced — contradicting
both the claim (index ← 0, play track[0]) and the method's own docstring
("Automatically starts playing first track"). -/
theorem add_songs_keeps_old_index :
    (add_songs (fun _ => none) 0 ["a.mp3", "b.mp3", "c.mp3"] staleIndexState).st.index = 1 ∧
    (add_songs (fun _ => none) 0 ["a.mp3", "b.mp3", "c.mp3"] staleIndexState).cmds =
      [Cmd.load "b.mp3", Cmd.play] ∧
    (add_songs (fun _ => none) 0 ["a.mp3", "b.mp3", "c.mp3"] staleIndexState).ok = true ∧
    (add_songs (fun _ => none) 0 ["a.mp3", "b.mp3"] { staleIndexState with index := 2 }).ok
      = false ∧
    (add_songs (fun _ => none) 0 ["a.mp3", "b.mp3"]
      { staleIndexState with index := 2 }).st.playlist = ["a.mp3", "b.mp3"] ∧
    (add_songs (fun _ => none) 0 ["a.mp3", "b.mp3"]
      { staleIndexState with index := 2 }).st.index = 2 ∧
    (1 : ℤ) ≠ 0 := by
  decide

/-- Mutual-exclusion and index-validity invariant of the playback state
machine, as stated by the spec's data model. -/
def StateInv (s : PState) : Prop :=
  (¬ (s.is_playing = true ∧ s.paused = true)) ∧
  ((s.is_playing = true ∨ s.paused = true) →
    s.playlist ≠ [] ∧ 0 ≤ s.index ∧ s.index < (s.playlist.length : ℤ))

instance (s : PState) : Decidable (StateInv s) := by
  unfold StateInv
  infer_instance

/-- C10 (code bug): starting from an invariant-satisfying state (Playing,
3 tracks, index 2), `add_songs` with a 2-file selection leaves the machine
Playing with index 2 on a playlist of length 2 — the invariant
"Playing implies a valid current index" is violated (the same missing
index reset as in C1; the IndexError escapes after the playlist was
replaced, and the tkinter loop keeps the program running in this state). -/
theorem add_songs_invariant_violation :
    StateInv { staleIndexState with index := 2 } ∧
    (add_songs (fun _ => none) 0 ["a.mp3", "b.mp3"] { staleIndexState with index := 2 }).ok
      = false ∧
    ¬ StateInv
      (add_songs (fun _ => none) 0 ["a.mp3", "b.mp3"] { staleIndexState with index := 2 }).st := by
  decide

/-- Paused player: track of 100 seconds, paused since the clock anchor was
set at tick 0 with offset 0. -/
def pausedState : PState :=
  { initial_state true Icon.play_icon with
      playlist := ["a.mp3"], index := 0, is_playing := false, paused := true,
      song_length := 100, seek_offset := 0, last_update_time := 0 }

/-- C2 (code bug): resuming from pause does not re-anchor the position
clock — `toggle_play_pause` only unpauses, keeping `last_update_time` and
`seek_offset` as they were, so immediately after a resume at tick 8000 the
reported position jumps to 8 seconds although it was 0 while paused:
wall-clock time spent paused is counted as elapsed playback time. -/
theorem toggle_play_pause_resume_no_reanchor :
    get_current_position 8000 pausedState = 0 ∧
    (toggle_play_pause (fun _ => none) 8000 pausedState).st.paused = false ∧
    (toggle_play_pause (fun _ => none) 8000 pausedState).st.is_playing = true ∧
    (toggle_play_pause (fun _ => none) 8000 pausedState).st.seek_offset = 0 ∧
    (toggle_play_pause (fun _ => none) 8000 pausedState).st.last_update_time = 0 ∧
    (toggle_play_pause (fun _ => none) 8000 pausedState).cmds = [Cmd.unpause] ∧
    get_current_position 8000 (toggle_play_pause (fun _ => none) 8000 pausedState).st = 8 ∧
    (8 : ℚ) ≠ 0 := by
  norm_num [toggle_play_pause, pausedState, initial_state, get_current_position]

/-- Player whose mixer failed to initialise (`AUDIO_OK = false`) holding a
loaded playlist. -/
def noAudioState : PState :=
  { initial_state false Icon.play_icon with playlist := ["a.mp3"], song_length := 100 }

/-- C5 (code bug): with `AUDIO_OK = false`, `change_volume` still calls the
backend unguarded — `pygame.mixer.music.set_volume` raises an uncaught
`pygame.error` instead of silently no-opping — `toggle_play_pause` still
flips `is_playing` to true, and `adjust_song` still attempts a backend
`set_pos` and overwrites the seek anchor; this contradicts `__init__`'s
own documentation that audio operations are disabled when `AUDIO_OK` is
false. -/
theorem backend_unavailable_not_disabled :
    noAudioState.AUDIO_OK = false ∧
    (change_volume (1/2) noAudioState).ok = false ∧
    noAudioState.is_playing = false ∧
    (toggle_play_pause (fun _ => none) 0 noAudioState).st.is_playing = true ∧
    (adjust_song 0 false (1/2) noAudioState).st.seek_offset = 50 ∧
    (adjust_song 0 false (1/2) noAudioState).cmds = [Cmd.set_pos 50] ∧
    noAudioState.seek_offset = 0 := by
  norm_num [change_volume, toggle_play_pause, adjust_song, noAudioState, initial_state,
    play_music, pyGet]
